import Mathlib

/-!
Verification development for the HS602 protocol client.

The repository contains three revisions of the same client:
  src/hs602/controller.py  (class Controller, the current revision)
  src/hs602/Controller.py  (historical revision with a settings cache)
  src/hs602.py             (historical revision with property descriptors)

Below, pure helpers (pad, echo, the frame encoders, the reply decoders)
are embedded as Lean functions, and the stateful parts (the command
dispatcher's receive loop and retry discipline, the indexed
character-stream transfer against a simulated echoing device) are
embedded as explicit state-passing functions.  Python byte strings are
List Nat (each element 0-255), machine arithmetic uses Nat with explicit
masks mirroring the source's `& 255` / shifts.  Functions that can raise
return Option (none = the Python code raises).
-/

namespace HS602

/-- Embedding of controller.py Controller.pad (line 91): data.ljust(pad, b'\0').
ljust appends zero bytes up to the requested size and never truncates. -/
def pad (data : List Nat) (p : Nat) : List Nat :=
  data ++ List.replicate (p - data.length) 0

/-- Little-endian 4-byte disassembly used throughout the source, e.g.
controller.py lines 642-659: [v & 255, (v >> 8) & 255, (v >> 16) & 255, (v >> 24) & 255]. -/
def le4 (v : Nat) : List Nat :=
  [v &&& 255, (v >>> 8) &&& 255, (v >>> 16) &&& 255, (v >>> 24) &&& 255]

/-- A Python value as it reaches Controller.echo: either a byte string or an int.
Needed because controller.py line 707 passes self.cmd_len (an int) where the
device reply (bytes) was intended. -/
inductive PyVal where
  | pybytes (bs : List Nat)
  | pyint (n : Nat)

/-- Embedding of controller.py Controller.echo (line 82): Python equality
`first == second`.  Values of different types are never equal in Python. -/
def echo : PyVal → PyVal → Bool
  | .pybytes a, .pybytes b => a == b
  | .pyint a, .pyint b => a == b
  | _, _ => false

/-- The rtmp get frame, controller.py line 394/397: cmd + [pos] with cmd = [option, 1].
It is sent to self.cmd without padding. -/
def rtmpGetFrame (opt pos : Nat) : List Nat := [opt, 1, pos]

/-- The colour get frame, controller.py line 495: [10, 1, option], sent unpadded. -/
def colourGetFrame (chan : Nat) : List Nat := [10, 1, chan]

/-- The colour set frame, controller.py line 500: pad([10, 0, option, new_value], cmd_len). -/
def colourSetFrame (cmdLen chan v : Nat) : List Nat := pad [10, 0, chan, v] cmdLen

/-- The rtmp character frame, controller.py line 408: pad(cmd + [pos, ord(char)], cmd_len). -/
def rtmpCharFrame (cmdLen opt pos ch : Nat) : List Nat := pad ([opt, 0] ++ [pos, ch]) cmdLen

/-- The rtmp terminator frame, controller.py line 416: pad(cmd + [len(value), 0], cmd_len). -/
def rtmpTermFrame (cmdLen opt len : Nat) : List Nat := pad ([opt, 0] ++ [len, 0]) cmdLen

/-- The picture set frame, controller.py line 611: pad([3, 0] + width + height, cmd_len). -/
def pictureSetFrame (cmdLen w h : Nat) : List Nat := pad ([3, 0] ++ le4 w ++ le4 h) cmdLen

/-- The fps get frame, controller.py line 693: pad([19, 1], cmd_len). -/
def fpsGetFrame (cmdLen : Nat) : List Nat := pad [19, 1] cmdLen

/-- The bitrate get frame, controller.py line 627: pad([2, 1]) with the DEFAULT
pad size 15, not self.cmd_len. -/
def bitrateGetFrame : List Nat := pad [2, 1] 15

/-- Embedding of the set path of controller.py Controller.bitrate (lines 632-661):
an average outside range(500, 20001) raises ValueError which is caught and
replaced by 20000; low = int(average * 7 / 10) and high = int(average * 13 / 10)
are floor divisions for these magnitudes (the float quotients are below 2^53,
so Python's int(x) truncation agrees with Nat division). -/
def bitrateSetFrame (cmdLen v : Nat) : List Nat :=
  let average := if 500 ≤ v ∧ v ≤ 20000 then v else 20000
  let low := average * 7 / 10
  let high := average * 13 / 10
  pad ([2, 0] ++ le4 average ++ le4 low ++ le4 high) cmdLen

/-- Embedding of hs602.py Controller._bitrate_set (lines 872-901): the average is
clamped below at 500 and above at 15000, then encoded the same way; _pad uses
self.cmd_len by default. -/
def bitrateSetFrame602 (cmdLen v : Nat) : List Nat :=
  let a1 := if 500 ≤ v then v else 500
  let average := if a1 ≤ 15000 then a1 else 15000
  let low := average * 7 / 10
  let high := average * 13 / 10
  pad ([2, 0] ++ le4 average ++ le4 low ++ le4 high) cmdLen

/-- Embedding of the set path of controller.py Controller.fps (lines 696-711).
The getter's round trip (line 693) has already sent pad([19, 1], cmd_len).
The set path validates with Controller.int (raises when the value is not
0-255), replaces values outside range(1, 61) by 60, builds the 4 LE bytes,
and then evaluates echo(pad([19, 0] + fps), self.cmd_len): it compares the
padded frame (bytes, padded to the DEFAULT 15) against the integer cmd_len
instead of calling self.cmd(frame).  Returns (result, frames sent). -/
def fpsSet (cmdLen n : Nat) : Option Nat × List (List Nat) :=
  let getFrame := fpsGetFrame cmdLen
  if n ≤ 255 then
    let v := if 1 ≤ n ∧ n ≤ 60 then n else 60
    let frame := pad ([19, 0] ++ le4 v) 15
    if echo (.pybytes frame) (.pyint cmdLen) then (some v, [getFrame])
    else (none, [getFrame])
  else (none, [getFrame])

/-- Embedding of the height decode of controller.py Controller.picture
(lines 560-565) with Python operator precedence: binary + binds tighter
than <<, which binds tighter than &, so the expression
ret[0] & 255 + (ret[1] & 255) << 8 + (ret[2] & 255) << 16 + (ret[3] & 255) << 24
parses as ret[0] & ((((255 + r1) << (8 + r2)) << (16 + r3)) << 24). -/
def pictureHeightCode (r : List Nat) : Nat :=
  (r.getD 0 0) &&&
    ((((255 + ((r.getD 1 0) &&& 255)) <<< (8 + ((r.getD 2 0) &&& 255)))
        <<< (16 + ((r.getD 3 0) &&& 255))) <<< 24)

/-- Embedding of the width decode of controller.py Controller.picture
(lines 566-571), same shape over bytes 4-7. -/
def pictureWidthCode (r : List Nat) : Nat :=
  (r.getD 4 0) &&&
    ((((255 + ((r.getD 5 0) &&& 255)) <<< (8 + ((r.getD 6 0) &&& 255)))
        <<< (16 + ((r.getD 7 0) &&& 255))) <<< 24)

/-- Height decode as the spec words it (LSB-first assembly of bytes 0-3);
written for comparison with pictureHeightCode. -/
def pictureHeightSpec (r : List Nat) : Nat :=
  r.getD 0 0 + (r.getD 1 0) * 2 ^ 8 + (r.getD 2 0) * 2 ^ 16 + (r.getD 3 0) * 2 ^ 24

/-- Width decode as the spec words it (LSB-first assembly of bytes 4-7). -/
def pictureWidthSpec (r : List Nat) : Nat :=
  r.getD 4 0 + (r.getD 5 0) * 2 ^ 8 + (r.getD 6 0) * 2 ^ 16 + (r.getD 7 0) * 2 ^ 24

/-- Whitespace predicate of Python str.strip for code points 1-255. -/
def isSpaceCode (c : Nat) : Bool :=
  [9, 10, 11, 12, 13, 28, 29, 30, 31, 32, 133, 160].contains c

/-- Embedding of the strip performed by controller.py Controller.str (line 52):
leading and trailing whitespace is removed before the 1-255 length check. -/
def strip (v : List Nat) : List Nat :=
  ((v.dropWhile isSpaceCode).reverse.dropWhile isSpaceCode).reverse

/-- The simulated device of the string-transfer claims: it echoes every frame
and stores the concatenated characters up to the terminator's declared length.
pending holds the characters received so far in the current transfer, stored
holds the committed value served to indexed get requests. -/
structure Dev where
  pending : List Nat
  stored : List Nat
deriving DecidableEq

/-- One request/response exchange with the simulated echoing device.
A set frame [opt, 0, a, b, ...] with b = 0 is the terminator declaring length
a (the device commits the first a pending characters); with b ≥ 1 it carries
character b.  Either way the reply is the frame itself (echo acknowledgment).
A get frame [opt, 1, pos, ...] is answered with the stored character at index
pos, or 0 past the end, in the first reply byte. -/
def devStep (d : Dev) (frame : List Nat) : List Nat × Dev :=
  match frame with
  | _ :: 0 :: a :: b :: _ =>
      if b = 0 then (frame, ⟨[], d.pending.take a⟩)
      else (frame, ⟨d.pending ++ [b], d.stored⟩)
  | _ :: 1 :: pos :: _ => ([d.stored.getD pos 0], d)
  | _ => (frame, d)

/-- The character loop of the rtmp set path, controller.py lines 407-413: for
each (pos, char) a padded frame is sent through the dispatcher and the reply
must echo the frame, otherwise the whole set raises.  Returns (device state
on success, frames sent). -/
def setChars (cmdLen opt : Nat) (d : Dev) : List (Nat × Nat) → Option Dev × List (List Nat)
  | [] => (some d, [])
  | pc :: rest =>
      let frame := rtmpCharFrame cmdLen opt pc.1 pc.2
      let rd := devStep d frame
      if frame = rd.1 then
        let out := setChars cmdLen opt rd.2 rest
        (out.1, frame :: out.2)
      else (none, [frame])

/-- The get loop of controller.py Controller.rtmp, lines 394-401: for pos in
range(0, 255) the unpadded frame [option, 1, pos] is sent, the first reply
byte is decoded, a zero byte stops the loop, every other byte is appended.
Returns (characters read, frames sent).  fuel starts at 255. -/
def rtmpGetLoop (d : Dev) (opt : Nat) : Nat → Nat → List Nat × List (List Nat)
  | 0, _ => ([], [])
  | fuel + 1, pos =>
      let frame := rtmpGetFrame opt pos
      let dec := ((devStep d frame).1).getD 0 0
      if dec = 0 then ([], [frame])
      else
        ((dec :: (rtmpGetLoop d opt fuel (pos + 1)).1),
         (frame :: (rtmpGetLoop d opt fuel (pos + 1)).2))

/-- Result of a Controller.rtmp call against the simulated device:
result (none = the Python code raises), final device state, frames sent. -/
structure RtmpOut where
  result : Option (List Nat)
  dev : Dev
  sent : List (List Nat)

/-- Embedding of controller.py Controller.rtmp (lines 373-423) for a resolved
option opcode, run against the simulated echoing device.  The get loop always
runs first; when a non-empty new value is supplied, Controller.str validates
that the STRIPPED value has length 1-255, then each character frame and the
terminator frame must be echoed, and the new value is returned. -/
def rtmp (cmdLen opt : Nat) (d : Dev) (newValue : Option (List Nat)) : RtmpOut :=
  let g := rtmpGetLoop d opt 255 0
  match newValue with
  | none => ⟨some g.1, d, g.2⟩
  | some v =>
      if v = [] then ⟨some g.1, d, g.2⟩
      else if 1 ≤ (strip v).length ∧ (strip v).length ≤ 255 then
        match setChars cmdLen opt d v.enum with
        | (none, fs) => ⟨none, d, g.2 ++ fs⟩
        | (some d1, fs) =>
            let frame := rtmpTermFrame cmdLen opt v.length
            let rd := devStep d1 frame
            if frame = rd.1 then ⟨some v, rd.2, g.2 ++ fs ++ [frame]⟩
            else ⟨none, rd.2, g.2 ++ fs ++ [frame]⟩
      else ⟨none, d, g.2⟩

/-- Embedding of controller.py Controller.colour (lines 474-507) for a resolved
channel 0-3, against a device whose get reply first byte is getReply and which
echoes set frames.  The get round trip happens FIRST (line 495); only then is
a supplied new value validated by Controller.int (raises unless 0-255, line
499) before the set frame is built and sent.  Returns (result, frames sent). -/
def colour (cmdLen chan getReply : Nat) (newValue : Option Nat) : Option Nat × List (List Nat) :=
  let getFrame := colourGetFrame chan
  let ret := getReply &&& 255
  match newValue with
  | none => (some ret, [getFrame])
  | some v =>
      if v ≤ 255 then (some v, [getFrame, colourSetFrame cmdLen chan v])
      else (none, [getFrame])

/-- Embedding of controller.py Controller.base_port (lines 744-752), against
the echoing device.  Controller.port validates 0-65535 FIRST (line 749,
raising before any I/O); only then is the frame bytes([14, 0]) +
port.to_bytes(2, 'little') built, padded to cmd_len and sent, the echo being
compared with Controller.echo.  Returns (result, frames sent). -/
def base_port (cmdLen p : Nat) : Option Bool × List (List Nat) :=
  if p ≤ 65535 then
    let cmd := pad ([14, 0] ++ [p &&& 255, (p >>> 8) &&& 255]) cmdLen
    (some (echo (.pybytes cmd) (.pybytes cmd)), [cmd])
  else (none, [])

/-- The stream-mode table of controller.py Controller.mode (line 721):
only three entries. -/
def modesNew : List String := ["unicast", "broadcast", "tcp"]

/-- The stream-mode table of Controller.py Controller._mode_ (lines 876-882):
all five entries. -/
def modesOld : List String := ["unicast", "broadcast", "tcp", "hls", "multicast"]

/-- The mode getter of controller.py (line 724-725): modes[code]; Python list
indexing raises IndexError out of range, modelled as none. -/
def modeGetNew (c : Nat) : Option String := modesNew.get? c

/-- The mode getter of Controller.py (lines 899-900): modes.get(code), None
when the code is unknown. -/
def modeGetOld (c : Nat) : Option String := modesOld.get? c

/-- The mode set frame of controller.py (lines 732-736): modes.index(name)
raises ValueError for an unknown name (none); otherwise pad([8, 0, idx], cmd_len). -/
def modeSetNew (cmdLen : Nat) (s : String) : Option (List Nat) :=
  (modesNew.findIdx? (· == s)).map fun i => pad [8, 0, i] cmdLen

/-- The mode set frame of Controller.py (lines 884-896): the dict is scanned
for the matching value, an unknown name raises (none); otherwise
pad([8, 0, mode], cmd_len). -/
def modeSetOld (cmdLen : Nat) (s : String) : Option (List Nat) :=
  (modesOld.findIdx? (· == s)).map fun i => pad [8, 0, i] cmdLen

/-- Decimal digit characters of n, most significant first, as Python str(int)
produces (codes 48-57); fuel-based recursion on n / 10. -/
def digitsRevAux : Nat → Nat → List Nat
  | 0, _ => []
  | _ + 1, 0 => []
  | fuel + 1, n + 1 => (48 + (n + 1) % 10) :: digitsRevAux fuel ((n + 1) / 10)

/-- Decimal representation of a Nat as character codes, as Python str(int). -/
def decDigits (n : Nat) : List Nat :=
  if n = 0 then [48] else (digitsRevAux n n).reverse

/-- Embedding of controller.py Controller.firmware (lines 277-285): the string
"major.minor.revision" (character codes) built from the first three reply
bytes, each masked with 255. -/
def firmwareChars (fw : List Nat) : List Nat :=
  decDigits ((fw.getD 0 0) &&& 255) ++ [46] ++
    decDigits ((fw.getD 1 0) &&& 255) ++ [46] ++
    decDigits ((fw.getD 2 0) &&& 255)

/-- Python startswith applied at controller.py line 467: does the firmware
string begin with the characters "56" (codes 53, 54)? -/
def startsWith56 (s : List Nat) : Bool := [53, 54].isPrefixOf s

/-- Result of a Controller.name call: result, frames sent, and whether the
indexed character-stream sub-protocol (Controller.rtmp with opcode 23) ran. -/
structure NameOut where
  result : Option (List Nat)
  sent : List (List Nat)
  usedCharStream : Bool

/-- Embedding of controller.py Controller.name (lines 461-472): the firmware
version is fetched first (one pad([56, 1], cmd_len) frame); if the version
string starts with "56" the accessor returns the empty string immediately,
otherwise it delegates to Controller.rtmp with opcode 23. -/
def name (cmdLen : Nat) (fwReply : List Nat) (d : Dev) (newValue : Option (List Nat)) : NameOut :=
  let fwFrame := pad [56, 1] cmdLen
  if startsWith56 (firmwareChars fwReply) then ⟨some [], [fwFrame], false⟩
  else
    let r := rtmp cmdLen 23 d newValue
    ⟨r.result, fwFrame :: r.sent, true⟩

/-- Embedding of the receive loop of controller.py Controller.cmd (lines
241-251): chunks are the successive socket recv results; an empty chunk means
the peer died (the code raises, none); the accumulated data is returned as
soon as its length reaches data_len; an exhausted chunk list models a recv
that never returns (none). -/
def recvLoop (dataLen : Nat) (acc : List Nat) : List (List Nat) → Option (List Nat)
  | [] => none
  | c :: cs =>
      if c = [] then none
      else
        let d := acc ++ c
        if dataLen ≤ d.length then some d else recvLoop dataLen d cs

/-- State of the client's TCP session attribute after a command run.
absent: the attribute is None; closedRef: the attribute still references a
socket whose OS handle was shut down and closed; live: an open socket. -/
inductive Sock where
  | absent
  | closedRef
  | live
deriving DecidableEq

/-- Outcome of one dispatcher call: ok (false = the call raised), the frames
written to the TCP socket in order, the number of knock-and-connect
sequences performed, and the final session state. -/
structure CmdRun where
  ok : Bool
  sent : List (List Nat)
  reconnects : Nat
  sock : Sock
deriving DecidableEq

/-- Embedding of the retry discipline of controller.py Controller.cmd (lines
209-256).  oracle i tells whether the i-th send/receive exchange succeeds.
With a live socket no knock/connect runs; on any transport failure the code
shuts the socket down (socket_shutdown closes the OS handle but, rebinding
only its local parameter, leaves self.socket referencing it) and re-raises:
there is no retry. -/
def cmd_v3 (oracle : Nat → Bool) (hasSock : Bool) (msg : List Nat) : CmdRun :=
  let recon := if hasSock then 0 else 1
  if oracle 0 then ⟨true, [msg], recon, .live⟩
  else ⟨false, [msg], recon, .closedRef⟩

/-- Embedding of the retry discipline of Controller.py Controller._cmd (lines
303-355).  A first transport failure closes the socket and recurses with
retry=True, which forces a fresh knock and connect and resends the same
frame; a failure with retry=True re-raises WITHOUT closing, so the socket
opened for the retry stays referenced and open. -/
def cmd_v2 (oracle : Nat → Bool) (hasSock : Bool) (msg : List Nat) : CmdRun :=
  let recon0 := if hasSock then 0 else 1
  if oracle 0 then ⟨true, [msg], recon0, .live⟩
  else if oracle 1 then ⟨true, [msg, msg], recon0 + 1, .live⟩
  else ⟨false, [msg, msg], recon0 + 1, .live⟩

/-- Embedding of the retry discipline of hs602.py Controller._cmd (lines
431-524).  error_count starts at 0; each transport failure with
error_count < 2 closes the socket (here _close really sets it to None),
increments the counter and recurses, reconnecting and resending; the failure
with error_count = 2 re-raises without closing.  Three sends in total. -/
def cmd_v1 (oracle : Nat → Bool) (hasSock : Bool) (msg : List Nat) : CmdRun :=
  let recon0 := if hasSock then 0 else 1
  if oracle 0 then ⟨true, [msg], recon0, .live⟩
  else if oracle 1 then ⟨true, [msg, msg], recon0 + 1, .live⟩
  else if oracle 2 then ⟨true, [msg, msg, msg], recon0 + 2, .live⟩
  else ⟨false, [msg, msg, msg], recon0 + 2, .live⟩

/-! Helper lemmas. -/

/-- Length of a padded frame: ljust pads but never truncates. -/
theorem pad_length (data : List Nat) (p : Nat) : (pad data p).length = max data.length p := by
  simp [pad]
  omega

/-- Normal form of a character frame. -/
theorem rtmpCharFrame_cons (cmdLen opt pos ch : Nat) :
    rtmpCharFrame cmdLen opt pos ch =
      opt :: 0 :: pos :: ch :: List.replicate (cmdLen - 4) 0 := by
  simp [rtmpCharFrame, pad]

/-- Normal form of a terminator frame. -/
theorem rtmpTermFrame_cons (cmdLen opt len : Nat) :
    rtmpTermFrame cmdLen opt len =
      opt :: 0 :: len :: 0 :: List.replicate (cmdLen - 4) 0 := by
  simp [rtmpTermFrame, pad]

/-- Against the echoing device, the character loop succeeds on any block of
nonzero characters and leaves them appended to the device's pending buffer. -/
theorem setChars_ok (cmdLen opt : Nat) (l : List Nat) (hl : ∀ c ∈ l, c ≠ 0) :
    ∀ (i : Nat) (d : Dev), ∃ fs,
      setChars cmdLen opt d (List.enumFrom i l) =
        (some ⟨d.pending ++ l, d.stored⟩, fs) := by
  induction l with
  | nil => intro i d; exact ⟨[], by simp [setChars]⟩
  | cons c l ih =>
      intro i d
      have hc : c ≠ 0 := hl c (by simp)
      have hrest : ∀ x ∈ l, x ≠ 0 := fun x hx => hl x (by simp [hx])
      obtain ⟨fs, hfs⟩ := ih hrest (i + 1) ⟨d.pending ++ [c], d.stored⟩
      refine ⟨rtmpCharFrame cmdLen opt i c :: fs, ?_⟩
      show setChars cmdLen opt d ((i, c) :: List.enumFrom (i + 1) l) = _
      rw [setChars]
      simp only [rtmpCharFrame_cons, devStep, if_neg hc, if_pos rfl]
      simp [hfs]

/-- The indexed get loop reads back exactly the stored value from position pos
on, provided the stored characters are nonzero and the fuel suffices. -/
theorem rtmpGetLoop_reads (opt : Nat) (p v : List Nat) (hv : ∀ c ∈ v, c ≠ 0) :
    ∀ (fuel pos : Nat), v.length ≤ pos + fuel →
      (rtmpGetLoop ⟨p, v⟩ opt fuel pos).1 = v.drop pos := by
  intro fuel
  induction fuel with
  | zero =>
      intro pos hle
      rw [List.drop_eq_nil_of_le (by omega)]
      rfl
  | succ fuel ih =>
      intro pos hle
      rw [rtmpGetLoop]
      have hhead : ∀ x : Nat, ([x] : List Nat).getD 0 0 = x := fun _ => rfl
      simp only [rtmpGetFrame, devStep, hhead]
      by_cases hpos : pos < v.length
      · have hget : (Dev.mk p v).stored.getD pos 0 = v[pos] := List.getD_eq_getElem v 0 hpos
        have hne : v[pos] ≠ 0 := hv _ (List.getElem_mem hpos)
        rw [hget, if_neg hne, List.drop_eq_getElem_cons hpos]
        simp only [List.cons.injEq, true_and]
        exact ih (pos + 1) (by omega)
      · have hge : v.length ≤ pos := by omega
        have hget : (Dev.mk p v).stored.getD pos 0 = 0 := List.getD_eq_default v 0 hge
        rw [hget, if_pos rfl, List.drop_eq_nil_of_le hge]

/-- dropWhile never lengthens a list. -/
theorem length_dropWhile_le (p : Nat → Bool) (l : List Nat) :
    (l.dropWhile p).length ≤ l.length := by
  induction l with
  | nil => simp
  | cons a l ih =>
      rw [List.dropWhile]
      cases p a
      · simp
      · simp; omega

/-- Stripping whitespace never lengthens a string. -/
theorem strip_length_le (v : List Nat) : (strip v).length ≤ v.length := by
  unfold strip
  calc (((v.dropWhile isSpaceCode).reverse.dropWhile isSpaceCode).reverse).length
      = ((v.dropWhile isSpaceCode).reverse.dropWhile isSpaceCode).length := by
        rw [List.length_reverse]
    _ ≤ (v.dropWhile isSpaceCode).reverse.length := length_dropWhile_le _ _
    _ = (v.dropWhile isSpaceCode).length := by rw [List.length_reverse]
    _ ≤ v.length := length_dropWhile_le _ _

/-- The receive loop of Controller.cmd, started with acc already read,
consumes every chunk of a reply that exactly completes data_len bytes. -/
theorem recvLoop_acc (cmdLen : Nat) :
    ∀ (chunks : List (List Nat)) (acc : List Nat), (∀ c ∈ chunks, c ≠ []) →
      acc.length < cmdLen → acc.length + chunks.flatten.length = cmdLen →
      recvLoop cmdLen acc chunks = some (acc ++ chunks.flatten) := by
  intro chunks
  induction chunks with
  | nil =>
      intro acc _ hlt hsum
      simp at hsum
      omega
  | cons c cs ih =>
      intro acc hne hlt hsum
      have hc : c ≠ [] := hne c (by simp)
      simp only [List.flatten_cons, List.length_append] at hsum
      rw [recvLoop]
      rw [if_neg hc]
      by_cases hfit : cmdLen ≤ (acc ++ c).length
      · rw [if_pos hfit]
        have hfit2 : cmdLen ≤ acc.length + c.length := by
          simpa [List.length_append] using hfit
        have hcs : cs.flatten.length = 0 := by omega
        have hcsnil : cs.flatten = [] := List.length_eq_zero.mp hcs
        simp [hcsnil]
      · rw [if_neg hfit]
        have hfit2 : acc.length + c.length < cmdLen := by
          simp only [List.length_append] at hfit
          omega
        rw [ih (acc ++ c) (fun x hx => hne x (by simp [hx]))
          (by simp only [List.length_append]; omega)
          (by simp only [List.length_append]; omega)]
        simp

/-! Claim theorems. -/

/-- C1: the fps setter of controller.py, called with the in-range value 30
and the default cmd_len 15, raises without ever sending a [19, 0] frame: the
only frame sent is the getter's pad([19, 1], 15), because line 707 evaluates
echo(pad([19, 0] + fps), self.cmd_len), comparing the byte frame against the
INTEGER cmd_len (always unequal in Python) instead of calling self.cmd.  The
claim says the frame is sent and the call succeeds when the device echoes it. -/
theorem c1_fps_set_never_sends :
    fpsSet 15 30 = (none, [fpsGetFrame 15]) ∧
    echo (.pybytes (pad ([19, 0] ++ le4 30) 15)) (.pyint 15) = false := by
  decide

/-- C2 counterexample: with every send/receive failing, Controller.py._cmd
(the revision with the retry=True recursion) leaves the socket opened for the
retry referenced and open, not closed; and controller.py.cmd makes no
reconnect-and-resend at all (a single send, where the claim requires two). -/
theorem c2_counterexample :
    (cmd_v2 (fun _ => false) true [0]).sock = Sock.live ∧
    ¬ ((cmd_v3 (fun _ => false) true [0]).sent.length = 2) := by
  decide

/-- C2 amended: transport-failure handling differs per revision.  In
controller.py a first failure propagates immediately with no retry and the OS
socket shut down (but still referenced); in Controller.py exactly one
reconnect-and-resend of the same frame is made and a second failure
propagates with the retry socket left open (not closed); in hs602.py three
sends (two reconnect-and-resends) happen before the error propagates, again
with the last socket left open.  When only the first attempt fails,
Controller.py's single retry succeeds having resent the same frame once. -/
theorem c2_amended (oracle oracle2 : Nat → Bool) (msg : List Nat)
    (h0 : oracle 0 = false) (h1 : oracle 1 = false) (h2 : oracle 2 = false)
    (g0 : oracle2 0 = false) (g1 : oracle2 1 = true) :
    cmd_v3 oracle true msg = ⟨false, [msg], 0, .closedRef⟩ ∧
    cmd_v2 oracle true msg = ⟨false, [msg, msg], 1, .live⟩ ∧
    cmd_v1 oracle true msg = ⟨false, [msg, msg, msg], 2, .live⟩ ∧
    cmd_v2 oracle2 true msg = ⟨true, [msg, msg], 1, .live⟩ := by
  refine ⟨?_, ?_, ?_, ?_⟩
  · simp [cmd_v3, h0]
  · simp [cmd_v2, h0, h1]
  · simp [cmd_v1, h0, h1, h2]
  · simp [cmd_v2, g0, g1]

/-- C2 witness: the amended retry behaviour at a concrete oracle and frame. -/
theorem c2_witness :
    cmd_v3 (fun _ => false) true [0] = ⟨false, [[0]], 0, .closedRef⟩ ∧
    cmd_v2 (fun _ => false) true [0] = ⟨false, [[0], [0]], 1, .live⟩ ∧
    cmd_v1 (fun _ => false) true [0] = ⟨false, [[0], [0], [0]], 2, .live⟩ ∧
    cmd_v2 (fun i => i == 1) true [0] = ⟨true, [[0], [0]], 1, .live⟩ :=
  c2_amended (fun _ => false) (fun i => i == 1) [0] rfl rfl rfl rfl rfl

/-- C3 counterexample: the rtmp get frame (here: url opcode 16, position 0)
is sent unpadded with 3 bytes, not the default cmd_len of 15. -/
theorem c3_counterexample : ¬ ((rtmpGetFrame 16 0).length = 15) := by
  decide

/-- C3 amended: every set frame (colour, rtmp character, rtmp terminator,
picture, bitrate) and the padded get frames such as fps are exactly cmd_len
bytes for any cmd_len of at least 14 (the longest unpadded payload); but the
rtmp-get and colour-get frames are always 3 bytes, and the bitrate-get frame
is padded to the constant default 15 independent of cmd_len. -/
theorem c3_amended (cmdLen chan v opt pos ch len w h bv : Nat) (hlen : 14 ≤ cmdLen) :
    (colourSetFrame cmdLen chan v).length = cmdLen ∧
    (rtmpCharFrame cmdLen opt pos ch).length = cmdLen ∧
    (rtmpTermFrame cmdLen opt len).length = cmdLen ∧
    (pictureSetFrame cmdLen w h).length = cmdLen ∧
    (bitrateSetFrame cmdLen bv).length = cmdLen ∧
    (fpsGetFrame cmdLen).length = cmdLen ∧
    (rtmpGetFrame opt pos).length = 3 ∧
    (colourGetFrame chan).length = 3 ∧
    bitrateGetFrame.length = 15 := by
  refine ⟨?_, ?_, ?_, ?_, ?_, ?_, ?_, ?_, ?_⟩
  · simp [colourSetFrame, pad_length]; omega
  · simp [rtmpCharFrame, pad_length]; omega
  · simp [rtmpTermFrame, pad_length]; omega
  · simp [pictureSetFrame, pad_length, le4]; omega
  · simp [bitrateSetFrame, pad_length, le4]; omega
  · simp [fpsGetFrame, pad_length]; omega
  · simp [rtmpGetFrame]
  · simp [colourGetFrame]
  · decide

/-- C3 witness: the amended frame-length facts at cmd_len 15 and sample
parameters. -/
theorem c3_witness :
    (colourSetFrame 15 0 128).length = 15 ∧
    (rtmpCharFrame 15 16 0 104).length = 15 ∧
    (rtmpTermFrame 15 16 2).length = 15 ∧
    (pictureSetFrame 15 1920 1080).length = 15 ∧
    (bitrateSetFrame 15 10000).length = 15 ∧
    (fpsGetFrame 15).length = 15 ∧
    (rtmpGetFrame 16 0).length = 3 ∧
    (colourGetFrame 0).length = 3 ∧
    bitrateGetFrame.length = 15 :=
  c3_amended 15 0 128 16 0 104 2 1920 1080 10000 (by decide)

/-- C4: on the reply whose first eight bytes carry 1920 little-endian in both
the height and width fields, the picture getter of controller.py computes 0
for both (Python parses the decode as r0 & ((((255 + r1) << (8 + r2)) <<
(16 + r3)) << 24) since + and << bind tighter than &), while the spec's
LSB-first assembly gives 1920. -/
theorem c4_picture_decode_precedence :
    pictureHeightCode [128, 7, 0, 0, 128, 7, 0, 0, 0, 0, 0, 0, 0, 0, 0] = 0 ∧
    pictureWidthCode [128, 7, 0, 0, 128, 7, 0, 0, 0, 0, 0, 0, 0, 0, 0] = 0 ∧
    pictureHeightSpec [128, 7, 0, 0, 128, 7, 0, 0, 0, 0, 0, 0, 0, 0, 0] = 1920 ∧
    pictureWidthSpec [128, 7, 0, 0, 128, 7, 0, 0, 0, 0, 0, 0, 0, 0, 0] = 1920 := by
  decide

/-- C5 counterexample: in hs602.py, setting the bitrate to 100 (outside the
range) encodes the clamped MINIMUM 500, not the documented maximum 15000 as
the claim requires for every out-of-range value. -/
theorem c5_counterexample :
    ¬ (bitrateSetFrame602 15 100 = bitrateSetFrame602 15 15000) := by
  decide

/-- C5 amended: an in-range average v encodes as [2, 0] ++ LE4 v ++
LE4 (v*7/10) ++ LE4 (v*13/10) zero-padded to cmd_len.  Out-of-range values
are never rejected, but the clamp differs per revision: controller.py
replaces ANY out-of-range value (above or below the 500-20000 range) by the
documented maximum 20000, while hs602.py clamps values above 15000 down to
15000 and values below 500 UP to the minimum 500. -/
theorem c5_amended (cmdLen v u w : Nat)
    (hv1 : 500 ≤ v) (hv2 : v ≤ 20000) (hu : 20000 < u) (hw : w < 500) :
    bitrateSetFrame cmdLen v =
      pad ([2, 0] ++ le4 v ++ le4 (v * 7 / 10) ++ le4 (v * 13 / 10)) cmdLen ∧
    bitrateSetFrame cmdLen u = bitrateSetFrame cmdLen 20000 ∧
    bitrateSetFrame cmdLen w = bitrateSetFrame cmdLen 20000 ∧
    bitrateSetFrame602 cmdLen u = bitrateSetFrame602 cmdLen 15000 ∧
    bitrateSetFrame602 cmdLen w = bitrateSetFrame602 cmdLen 500 := by
  have h602 : ∀ x : Nat, bitrateSetFrame602 cmdLen x =
      pad ([2, 0] ++ le4 (min (max x 500) 15000) ++
        le4 (min (max x 500) 15000 * 7 / 10) ++
        le4 (min (max x 500) 15000 * 13 / 10)) cmdLen := by
    intro x
    simp only [bitrateSetFrame602]
    have hinner : (if 500 ≤ x then x else 500) = max x 500 := by
      rcases le_or_lt 500 x with h | h
      · rw [if_pos h]; omega
      · rw [if_neg (by omega)]; omega
    rw [hinner]
    have houter : (if max x 500 ≤ 15000 then max x 500 else 15000) =
        min (max x 500) 15000 := by
      rcases le_or_lt (max x 500) 15000 with h | h
      · rw [if_pos h]; omega
      · rw [if_neg (by omega)]; omega
    rw [houter]
  refine ⟨?_, ?_, ?_, ?_, ?_⟩
  · simp only [bitrateSetFrame]
    rw [if_pos ⟨hv1, hv2⟩]
  · simp only [bitrateSetFrame]
    rw [if_neg (by omega), if_pos (by omega)]
  · simp only [bitrateSetFrame]
    rw [if_neg (by omega), if_pos (by omega)]
  · rw [h602, h602]
    have ha : min (max u 500) 15000 = 15000 := by omega
    have hb : min (max 15000 500) 15000 = 15000 := by omega
    rw [ha, hb]
  · rw [h602, h602]
    have ha : min (max w 500) 15000 = 500 := by omega
    have hb : min (max 500 500) 15000 = 500 := by omega
    rw [ha, hb]

/-- C5 witness: the amended bitrate encoding at cmd_len 15, in-range 10000
(the claim's concrete scenario, yielding LE 10000/7000/13000), over-range
999999 and under-range 100, with the in-range frame spelled out. -/
theorem c5_witness :
    (bitrateSetFrame 15 10000 =
      pad ([2, 0] ++ le4 10000 ++ le4 (10000 * 7 / 10) ++ le4 (10000 * 13 / 10)) 15 ∧
    bitrateSetFrame 15 999999 = bitrateSetFrame 15 20000 ∧
    bitrateSetFrame 15 100 = bitrateSetFrame 15 20000 ∧
    bitrateSetFrame602 15 999999 = bitrateSetFrame602 15 15000 ∧
    bitrateSetFrame602 15 100 = bitrateSetFrame602 15 500) ∧
    bitrateSetFrame 15 10000 = [2, 0, 16, 39, 0, 0, 88, 27, 0, 0, 200, 50, 0, 0, 0] :=
  ⟨c5_amended 15 10000 999999 100 (by decide) (by decide) (by decide) (by decide),
   by decide⟩

/-- C6 counterexample: the single space " " (code 32, length 1, in the
claim's domain) cannot be round-tripped: Controller.str strips the value
before the 1-255 length check, so the whitespace-only value raises and the
set never succeeds. -/
theorem c6_counterexample :
    ¬ ((rtmp 15 16 ⟨[], []⟩ (some [32])).result = some [32]) := by
  decide

/-- C6 amended: for every value of length 1-255 with character codes 1-255
that contains at least one non-whitespace character (equivalently, whose
Python-stripped form is non-empty), and every rtmp opcode, setting through
the echoing device succeeds, the device ends up storing exactly the value,
and a subsequent get returns exactly the value. -/
theorem c6_amended (cmdLen opt : Nat) (d : Dev) (v : List Nat)
    (hp : d.pending = []) (h1 : 1 ≤ v.length) (h255 : v.length ≤ 255)
    (hc : ∀ c ∈ v, 1 ≤ c ∧ c ≤ 255) (hs : strip v ≠ []) :
    (rtmp cmdLen opt d (some v)).result = some v ∧
    (rtmp cmdLen opt d (some v)).dev = ⟨[], v⟩ ∧
    (rtmp cmdLen opt ((rtmp cmdLen opt d (some v)).dev) none).result = some v := by
  have hvne : v ≠ [] := by
    intro h
    rw [h] at h1
    simp at h1
  have hcond : 1 ≤ (strip v).length ∧ (strip v).length ≤ 255 :=
    ⟨List.length_pos.mpr hs, le_trans (strip_length_le v) h255⟩
  have hnz : ∀ c ∈ v, c ≠ 0 := by
    intro c hmem
    have := (hc c hmem).1
    omega
  obtain ⟨fs, hfs⟩ := setChars_ok cmdLen opt v hnz 0 d
  have henum : v.enum = List.enumFrom 0 v := rfl
  have hset : rtmp cmdLen opt d (some v) =
      ⟨some v, ⟨[], v⟩,
        (rtmpGetLoop d opt 255 0).2 ++ fs ++ [rtmpTermFrame cmdLen opt v.length]⟩ := by
    rw [rtmp]
    simp only [if_neg hvne, if_pos hcond, henum, hfs]
    simp only [rtmpTermFrame_cons, devStep, if_pos rfl]
    simp [hp, rtmpTermFrame_cons]
  have hget2 : (rtmp cmdLen opt (⟨[], v⟩ : Dev) none).result = some v := by
    rw [rtmp]
    have := rtmpGetLoop_reads opt [] v hnz 255 0 (by omega)
    simp [this]
  rw [hset]
  exact ⟨rfl, rfl, hget2⟩

/-- C6 witness: round-tripping the two-character value "hi" (codes 104, 105)
through the url opcode at cmd_len 15. -/
theorem c6_witness :
    (rtmp 15 16 ⟨[], []⟩ (some [104, 105])).result = some [104, 105] ∧
    (rtmp 15 16 ⟨[], []⟩ (some [104, 105])).dev = ⟨[], [104, 105]⟩ ∧
    (rtmp 15 16 ((rtmp 15 16 ⟨[], []⟩ (some [104, 105])).dev) none).result =
      some [104, 105] :=
  c6_amended 15 16 ⟨[], []⟩ [104, 105] rfl (by decide) (by decide)
    (by decide) (by decide)

/-- C7 counterexample: calling the colour setter with the out-of-range value
300 raises, but only AFTER a command frame (the accessor's leading get round
trip) has been sent: the sent-frame list is not empty, contradicting the
claim that no frame is sent for that call. -/
theorem c7_counterexample :
    (colour 15 0 0 (some 300)).1 = none ∧ ¬ ((colour 15 0 0 (some 300)).2 = []) := by
  decide

/-- C7 amended: an out-of-domain value never causes a SET frame to be sent,
but where the error falls relative to socket I/O differs per accessor.
base_port is the only setter matching the original claim: Controller.port
validates before any I/O, so an out-of-range port raises with NO frame sent.
The colour and fps accessors perform their leading get round trip first and
validate only afterwards, so exactly the get frame is sent before the
out-of-range error.  The rtmp string setters run the whole indexed get loop
before Controller.str checks the (stripped) length 1-255, so the get frames
are sent before the error and nothing else.  And a string of length 0 is not
an error at all: rtmp's truthiness test degrades the call to a plain get,
returning the current value with only the get frames sent. -/
theorem c7_amended (cmdLen chan r v p n opt : Nat) (d : Dev) (w : List Nat)
    (hv : 255 < v) (hp : 65535 < p) (hn : 255 < n) (hw : w ≠ [])
    (hwlen : ¬ (1 ≤ (strip w).length ∧ (strip w).length ≤ 255)) :
    (colour cmdLen chan r (some v)).1 = none ∧
    (colour cmdLen chan r (some v)).2 = [colourGetFrame chan] ∧
    (fpsSet cmdLen n).1 = none ∧
    (fpsSet cmdLen n).2 = [fpsGetFrame cmdLen] ∧
    (base_port cmdLen p).1 = none ∧
    (base_port cmdLen p).2 = [] ∧
    (rtmp cmdLen opt d (some w)).result = none ∧
    (rtmp cmdLen opt d (some w)).sent = (rtmpGetLoop d opt 255 0).2 ∧
    (rtmp cmdLen opt d (some [])).result = some (rtmpGetLoop d opt 255 0).1 ∧
    (rtmp cmdLen opt d (some [])).sent = (rtmpGetLoop d opt 255 0).2 := by
  refine ⟨?_, ?_, ?_, ?_, ?_, ?_, ?_, ?_, ?_, ?_⟩
  · simp only [colour]
    rw [if_neg (by omega)]
  · simp only [colour]
    rw [if_neg (by omega)]
  · simp only [fpsSet]
    rw [if_neg (by omega)]
  · simp only [fpsSet]
    rw [if_neg (by omega)]
  · simp only [base_port]
    rw [if_neg (by omega)]
  · simp only [base_port]
    rw [if_neg (by omega)]
  · rw [rtmp]
    simp only [if_neg hw, if_neg hwlen]
  · rw [rtmp]
    simp only [if_neg hw, if_neg hwlen]
  · rw [rtmp]
    simp
  · rw [rtmp]
    simp

set_option maxRecDepth 8192 in
/-- C7 witness: colour value 300, fps value 300, port 70000, an over-long
rtmp value of 256 characters, and the empty rtmp value, all against the url
opcode and a fresh device at cmd_len 15. -/
theorem c7_witness :
    (colour 15 0 0 (some 300)).1 = none ∧
    (colour 15 0 0 (some 300)).2 = [colourGetFrame 0] ∧
    (fpsSet 15 300).1 = none ∧
    (fpsSet 15 300).2 = [fpsGetFrame 15] ∧
    (base_port 15 70000).1 = none ∧
    (base_port 15 70000).2 = [] ∧
    (rtmp 15 16 ⟨[], []⟩ (some (List.replicate 256 104))).result = none ∧
    (rtmp 15 16 ⟨[], []⟩ (some (List.replicate 256 104))).sent =
      (rtmpGetLoop ⟨[], []⟩ 16 255 0).2 ∧
    (rtmp 15 16 ⟨[], []⟩ (some [])).result = some (rtmpGetLoop ⟨[], []⟩ 16 255 0).1 ∧
    (rtmp 15 16 ⟨[], []⟩ (some [])).sent = (rtmpGetLoop ⟨[], []⟩ 16 255 0).2 :=
  c7_amended 15 0 0 300 70000 300 16 ⟨[], []⟩ (List.replicate 256 104)
    (by decide) (by decide) (by decide) (by decide) (by decide)

/-- C8: for every expected reply of exactly cmd_len bytes and every way of
splitting it into non-empty TCP chunk deliveries, the receive loop of
controller.py Controller.cmd returns exactly those cmd_len bytes. -/
theorem c8_reply_length_exact (cmdLen : Nat) (chunks : List (List Nat))
    (hpos : 0 < cmdLen) (hne : ∀ c ∈ chunks, c ≠ [])
    (hlen : chunks.flatten.length = cmdLen) :
    recvLoop cmdLen [] chunks = some chunks.flatten ∧
    chunks.flatten.length = cmdLen := by
  refine ⟨?_, hlen⟩
  have h := recvLoop_acc cmdLen chunks [] hne
    (by simpa using hpos)
    (by simp only [List.length_nil, Nat.zero_add]; exact hlen)
  rw [List.nil_append] at h
  exact h

/-- C8 witness: a 15-byte reply delivered in three chunks of 5 bytes is
returned whole with length exactly 15. -/
theorem c8_witness :
    recvLoop 15 [] [[1, 2, 3, 4, 5], [6, 7, 8, 9, 10], [11, 12, 13, 14, 15]] =
      some [[1, 2, 3, 4, 5], [6, 7, 8, 9, 10], [11, 12, 13, 14, 15]].flatten ∧
    ([[1, 2, 3, 4, 5], [6, 7, 8, 9, 10], [11, 12, 13, 14, 15]] :
      List (List Nat)).flatten.length = 15 :=
  c8_reply_length_exact 15 [[1, 2, 3, 4, 5], [6, 7, 8, 9, 10], [11, 12, 13, 14, 15]]
    (by decide) (by decide) (by decide)

/-- C9 counterexample: the mode getter of controller.py indexes the
three-entry list ['unicast', 'broadcast', 'tcp'], so reply code 3 raises
IndexError instead of returning 'hls'. -/
theorem c9_counterexample : ¬ (modeGetNew 3 = some "hls") := by
  decide

/-- C9 amended: in Controller.py all five codes 0-4 decode to unicast,
broadcast, tcp, hls, multicast and each name encodes to pad([8, 0, code],
cmd_len); in controller.py only codes 0-2 and the three corresponding names
are supported — code 3 and 4 raise on get, and hls or multicast raise on set. -/
theorem c9_amended :
    (modeGetOld 0 = some "unicast" ∧ modeGetOld 1 = some "broadcast" ∧
     modeGetOld 2 = some "tcp" ∧ modeGetOld 3 = some "hls" ∧
     modeGetOld 4 = some "multicast") ∧
    (modeSetOld 15 "unicast" = some (pad [8, 0, 0] 15) ∧
     modeSetOld 15 "broadcast" = some (pad [8, 0, 1] 15) ∧
     modeSetOld 15 "tcp" = some (pad [8, 0, 2] 15) ∧
     modeSetOld 15 "hls" = some (pad [8, 0, 3] 15) ∧
     modeSetOld 15 "multicast" = some (pad [8, 0, 4] 15)) ∧
    (modeGetNew 0 = some "unicast" ∧ modeGetNew 1 = some "broadcast" ∧
     modeGetNew 2 = some "tcp" ∧ modeGetNew 3 = none ∧ modeGetNew 4 = none) ∧
    (modeSetNew 15 "tcp" = some (pad [8, 0, 2] 15) ∧
     modeSetNew 15 "hls" = none ∧ modeSetNew 15 "multicast" = none) := by
  decide

/-- C10: whenever the firmware string reported by the device begins with
"56", the channel-name accessor returns the empty string, never invokes the
rtmp character-stream sub-protocol, and sends no frame with opcode 23 — its
only traffic is the firmware query pad([56, 1], cmd_len). -/
theorem c10_name_firmware56 (cmdLen : Nat) (fwReply : List Nat) (d : Dev)
    (newValue : Option (List Nat))
    (h56 : startsWith56 (firmwareChars fwReply) = true) :
    (name cmdLen fwReply d newValue).result = some [] ∧
    (name cmdLen fwReply d newValue).usedCharStream = false ∧
    (name cmdLen fwReply d newValue).sent = [pad [56, 1] cmdLen] ∧
    ∀ f ∈ (name cmdLen fwReply d newValue).sent, f.headD 0 ≠ 23 := by
  simp only [name]
  rw [if_pos h56]
  refine ⟨rfl, rfl, rfl, ?_⟩
  intro f hf
  simp only [List.mem_singleton] at hf
  subst hf
  simp [pad]

/-- C10 witness: firmware reply bytes [56, 1, 2] give the string "56.1.2",
which begins with "56"; the accessor returns the empty string, sends only
the firmware frame, and never uses the character stream. -/
theorem c10_witness :
    (name 15 [56, 1, 2] ⟨[], []⟩ none).result = some [] ∧
    (name 15 [56, 1, 2] ⟨[], []⟩ none).usedCharStream = false ∧
    (name 15 [56, 1, 2] ⟨[], []⟩ none).sent = [pad [56, 1] 15] ∧
    ∀ f ∈ (name 15 [56, 1, 2] ⟨[], []⟩ none).sent, f.headD 0 ≠ 23 :=
  c10_name_firmware56 15 [56, 1, 2] ⟨[], []⟩ none (by decide)

end HS602
